import Mathlib

/-!
Shallow embedding of the transport-state synchronization server in
`src/server/server.py` (drum-ar-hud).  Python's dynamically typed numeric
fields are modelled as rationals (`Rat`); JSON numbers written by clients are
rationals, and Python's `int(...)` conversion inside `TransportState.clamp`
is truncation toward zero (`ratTrunc`).  The observer registry
(`AppState.ws_clients`, a Python set of websockets) is modelled as a `List Nat`
of observer handles together with a failure behaviour `fails : Nat → Bool`
saying which observers' `send_str` raises during the broadcast under study.
Wall-clock reads (`time.time()`) are passed in as explicit rational time
parameters.
-/

namespace DrumHud

/-- Python `int(x)` on a number: truncation toward zero. -/
def ratTrunc (q : Rat) : Int := if 0 ≤ q then ⌊q⌋ else ⌈q⌉

/-- The `TransportState` dataclass (server.py lines 33-42).  All numeric
fields are rationals because Python stores whatever JSON number a client
wrote until `clamp` runs. -/
@[ext]
structure TransportState where
  playing : Bool
  bar : Rat
  beat : Rat
  bpm : Rat
  ppq : Rat
  ts_num : Rat
  ts_den : Rat
  t_host : Rat
deriving Repr, DecidableEq

/-- Dataclass defaults: `TransportState()` (server.py lines 34-42). -/
def TransportState.init : TransportState :=
  { playing := false, bar := 1, beat := 1, bpm := 120, ppq := 0,
    ts_num := 4, ts_den := 4, t_host := 0 }

/-- `TransportState.clamp` (server.py lines 44-50):
`bar = max(1, int(bar))`, `beat = max(1, int(beat))`,
`bpm = float(bpm) if bpm else 120.0` (Python truthiness: a number is falsy
iff it is zero), `ppq = float(ppq) if ppq else 0.0`,
`ts_num = max(1, int(ts_num))`, `ts_den = max(1, int(ts_den))`. -/
def TransportState.clamp (s : TransportState) : TransportState :=
  { s with
    bar := ((max 1 (ratTrunc s.bar) : Int) : Rat)
    beat := ((max 1 (ratTrunc s.beat) : Int) : Rat)
    bpm := if s.bpm ≠ 0 then s.bpm else 120
    ppq := if s.ppq ≠ 0 then s.ppq else 0
    ts_num := ((max 1 (ratTrunc s.ts_num) : Int) : Rat)
    ts_den := ((max 1 (ratTrunc s.ts_den) : Int) : Rat) }

/-- The state mutation done by `AppState.state_payload` (server.py lines
68-74): stamp `t_host = time.time()` (the parameter `t`), then clamp in
place.  The payload is read off the resulting state. -/
def statePayloadCore (s : TransportState) (t : Rat) : TransportState :=
  TransportState.clamp { s with t_host := t }

/-- The dictionary returned by `state_payload`: `asdict(self.state)` plus
`payload["activeProjectId"]`. -/
structure Payload where
  playing : Bool
  bar : Rat
  beat : Rat
  bpm : Rat
  ppq : Rat
  ts_num : Rat
  ts_den : Rat
  t_host : Rat
  activeProjectId : String
deriving Repr, DecidableEq

/-- Read the payload dictionary off a (stamped, clamped) state. -/
def mkPayload (s : TransportState) (pid : String) : Payload :=
  { playing := s.playing, bar := s.bar, beat := s.beat, bpm := s.bpm,
    ppq := s.ppq, ts_num := s.ts_num, ts_den := s.ts_den,
    t_host := s.t_host, activeProjectId := pid }

/-- Model of `json.dumps(app_state.state_payload())`: a deterministic
serialization of the payload dictionary.  Broadcast claims only compare
serializations of payloads with each other, so any injective-enough
encoding is faithful. -/
def serializePayload (p : Payload) : String :=
  "playing=" ++ toString p.playing ++ ";bar=" ++ toString p.bar ++
  ";beat=" ++ toString p.beat ++ ";bpm=" ++ toString p.bpm ++
  ";ppq=" ++ toString p.ppq ++ ";ts_num=" ++ toString p.ts_num ++
  ";ts_den=" ++ toString p.ts_den ++ ";t_host=" ++ toString p.t_host ++
  ";activeProjectId=" ++ p.activeProjectId

/-- The mutable `AppState` (server.py lines 53-66) minus the read-only
project catalog, which is passed separately where needed.  `wsClients` is
the observer registry `ws_clients` (a Python set: no duplicates). -/
structure AppState where
  activeProjectId : String
  state : TransportState
  wsClients : List Nat
deriving Repr, DecidableEq

/-- The parsed JSON body of a `POST /api/state` request: for each of the
seven recognized field names, the value present in the dictionary (if any);
`extra` records any unrecognized field names also present. -/
structure UpdatePayload where
  playing : Option Bool
  bar : Option Rat
  beat : Option Rat
  bpm : Option Rat
  ppq : Option Rat
  ts_num : Option Rat
  ts_den : Option Rat
  extra : List String
deriving Repr, DecidableEq

/-- An update payload with no fields present. -/
def UpdatePayload.empty : UpdatePayload :=
  { playing := none, bar := none, beat := none, bpm := none, ppq := none,
    ts_num := none, ts_den := none, extra := [] }

/-- The field-assignment loop of `http_set_state` (server.py lines 177-179):
`for k in ("playing","bar","beat","bpm","ppq","ts_num","ts_den"): if k in
payload: setattr(app_state.state, k, payload[k])`.  Keys in `extra` are
never consulted. -/
def applyFields (s : TransportState) (p : UpdatePayload) : TransportState :=
  { s with
    playing := p.playing.getD s.playing
    bar := p.bar.getD s.bar
    beat := p.beat.getD s.beat
    bpm := p.bpm.getD s.bpm
    ppq := p.ppq.getD s.ppq
    ts_num := p.ts_num.getD s.ts_num
    ts_den := p.ts_den.getD s.ts_den }

/-- Everything `http_set_state` (server.py lines 170-193) produces:
the final app state, the broadcast snapshot and its serialization, the
per-observer delivery attempts, the successful deliveries, the dead set,
and the second payload embedded in the HTTP response. -/
structure SetStateResult where
  appState : AppState
  snapshot : Payload
  broadcastMsg : String
  attempts : List (Nat × String)
  delivered : List (Nat × String)
  dead : List Nat
  responseState : Payload
deriving Repr, DecidableEq

/-- `http_set_state` (server.py lines 170-193).  `fails c = true` means
`ws.send_str` raises for observer `c` during this broadcast.  `t1` is the
wall clock at the broadcast's `state_payload()` call, `t2` at the response's
second `state_payload()` call. -/
def httpSetState (a : AppState) (p : UpdatePayload) (fails : Nat → Bool)
    (t1 t2 : Rat) : SetStateResult :=
  let s1 := applyFields a.state p
  let s2 := statePayloadCore s1 t1
  let pay := mkPayload s2 a.activeProjectId
  let msg := serializePayload pay
  let attempts := a.wsClients.map (fun c => (c, msg))
  let delivered := (a.wsClients.filter (fun c => !fails c)).map (fun c => (c, msg))
  let deadList := a.wsClients.filter (fun c => fails c)
  let newClients := a.wsClients.filter (fun c => !fails c)
  let s3 := statePayloadCore s2 t2
  { appState := { activeProjectId := a.activeProjectId, state := s3, wsClients := newClients }
    snapshot := pay
    broadcastMsg := msg
    attempts := attempts
    delivered := delivered
    dead := deadList
    responseState := mkPayload s3 a.activeProjectId }

/-- Python whitespace strip on a character list (`str.strip()` as done by
`int(...)` before parsing). -/
def pyTrim (l : List Char) : List Char :=
  ((l.dropWhile Char.isWhitespace).reverse.dropWhile Char.isWhitespace).reverse

/-- Helper for `pyIntOfChars`: interior of a digit run, where a single
underscore may appear between digits but never doubled or trailing. -/
def digitsRest : List Char → Bool
  | [] => false
  | [c] => c.isDigit
  | a :: b :: rest =>
    (a.isDigit || (a = '_' && b.isDigit)) && digitsRest (b :: rest)

/-- A run of characters is a valid Python integer-literal body when it is
nonempty, starts (and ends) with an ASCII digit, contains only digits and
underscores, and never has two consecutive underscores (Python allows
single underscores between digits). -/
def digitsOk : List Char → Bool
  | [] => false
  | c :: rest => c.isDigit && digitsRest (c :: rest)

/-- Numeric value of a digit/underscore run (underscores skipped). -/
def digitsVal (l : List Char) : Nat :=
  (l.filter (fun c => c.isDigit)).foldl (fun acc c => acc * 10 + (c.toNat - 48)) 0

/-- Python `int(s)` on the characters of a string: strip surrounding
whitespace, optional sign, then a digit run (single underscores allowed
between digits); `none` models the `ValueError` Python raises otherwise. -/
def pyIntOfChars (l : List Char) : Option Int :=
  match pyTrim l with
  | [] => none
  | c :: rest =>
    if c = '-' then
      if digitsOk rest then some (-(digitsVal rest : Int)) else none
    else if c = '+' then
      if digitsOk rest then some (digitsVal rest : Int) else none
    else
      if digitsOk (c :: rest) then some (digitsVal (c :: rest) : Int) else none

/-- Python `int(s)` on a string. -/
def pyIntOfString (s : String) : Option Int :=
  pyIntOfChars s.data

/-- Python `s.split("/")` for the single-character separator, on the
character list of the string: `"3/4"` ↦ `[['3'], ['4']]`, `""` ↦ `[[]]`,
`"/"` ↦ `[[], []]`. -/
def splitOnSlash : List Char → List (List Char)
  | [] => [[]]
  | c :: rest =>
    if c = '/' then [] :: splitOnSlash rest
    else
      match splitOnSlash rest with
      | [] => [[c]]
      | h :: t => (c :: h) :: t

/-- Project metadata as consumed by `http_select` and `build_app`:
`meta.get("bpm")`, `meta.get("tempo")` (numbers when present) and
`meta.get("timeSig")` (a string when present; a non-string value behaves
like an absent one because of the `isinstance(ts, str)` guard). -/
structure ProjectMeta where
  bpm : Option Rat
  tempo : Option Rat
  timeSig : Option String
deriving Repr, DecidableEq

/-- A catalog entry: `project.get("meta")` may be absent. -/
structure Project where
  meta : Option ProjectMeta
deriving Repr, DecidableEq

/-- Python `x or y` where `x` is `meta.get(...)` (a number or `None`) and a
number is falsy iff zero. -/
def pyOrNum (a : Option Rat) (b : Rat) : Rat :=
  match a with
  | some q => if q ≠ 0 then q else b
  | none => b

/-- Python `payload.get("projectId") or payload.get("id")` where the values
are strings or `None` and the empty string is falsy. -/
def pyOrStr (a b : Option String) : Option String :=
  match a with
  | some s => if s ≠ "" then some s else b
  | none => b

/-- The time-signature block of `http_select` (server.py lines 133-141):
starting from the previous `ts_num`/`ts_den`, if `ts` is a string
containing `"/"`, try `ts_num = int(parts[0])` then `ts_den = int(parts[1])`
inside one `try`: if the first conversion raises neither is assigned; if
only the second raises, `ts_num` keeps the already-assigned first value. -/
def parseTs (ts : Option String) (prevNum prevDen : Rat) : Rat × Rat :=
  match ts with
  | none => (prevNum, prevDen)
  | some s =>
    if s.data.contains '/' then
      match pyIntOfChars ((splitOnSlash s.data).getD 0 []) with
      | none => (prevNum, prevDen)
      | some n =>
        match pyIntOfChars ((splitOnSlash s.data).getD 1 []) with
        | none => ((n : Rat), prevDen)
        | some d => ((n : Rat), (d : Rat))
    else (prevNum, prevDen)

/-- Everything `http_select` (server.py lines 110-150) produces: whether it
answered 404 project-not-found, the final app state, the broadcast snapshot
(when one happened) with its delivery bookkeeping. -/
structure SelectResult where
  notFound : Bool
  appState : AppState
  snapshot : Option Payload
  attempts : List (Nat × String)
  delivered : List (Nat × String)
  dead : List Nat
deriving Repr, DecidableEq

/-- `http_select` (server.py lines 110-150).  `projects` is the read-only
catalog; `projectIdField`/`idField` are `payload.get("projectId")` and
`payload.get("id")` of the request body (both `none` when the body is
unparsable, modelling the `except: payload = {}` branch); `fails` is the
per-observer send behaviour and `t` the wall clock at the broadcast's
`state_payload()` call. -/
def httpSelect (projects : List (String × Project)) (a : AppState)
    (projectIdField idField : Option String) (fails : Nat → Bool)
    (t : Rat) : SelectResult :=
  let pid? := pyOrStr projectIdField idField
  let notFoundResult : SelectResult :=
    { notFound := true, appState := a, snapshot := none,
      attempts := [], delivered := [], dead := [] }
  match pid? with
  | none => notFoundResult
  | some pid =>
    if pid = "" then notFoundResult
    else
      match projects.lookup pid with
      | none => notFoundResult
      | some proj =>
        let m := proj.meta.getD { bpm := none, tempo := none, timeSig := none }
        let bpmVal := pyOrNum m.bpm (pyOrNum m.tempo a.state.bpm)
        let tsPair := parseTs m.timeSig a.state.ts_num a.state.ts_den
        let s1 : TransportState :=
          { a.state with
            bar := 1
            beat := 1
            ppq := 0
            bpm := bpmVal
            ts_num := tsPair.1
            ts_den := tsPair.2 }
        let s2 := statePayloadCore s1 t
        let pay := mkPayload s2 pid
        let msg := serializePayload pay
        { notFound := false
          appState :=
            { activeProjectId := pid, state := s2,
              wsClients := a.wsClients.filter (fun c => !fails c) }
          snapshot := some pay
          attempts := a.wsClients.map (fun c => (c, msg))
          delivered := (a.wsClients.filter (fun c => !fails c)).map (fun c => (c, msg))
          dead := a.wsClients.filter (fun c => fails c) }

/-- The time-signature string `ts` "parses as N/D": it contains a slash and
both the part before the first slash and the part after it are accepted by
Python's `int(...)`. -/
def tsParses (ts : String) : Bool :=
  ts.data.contains '/' &&
  (pyIntOfChars ((splitOnSlash ts.data).getD 0 [])).isSome &&
  (pyIntOfChars ((splitOnSlash ts.data).getD 1 [])).isSome

/-- A sequence of `POST /api/state` calls: fold `http_set_state` over the
app state, each call with its own broadcast/response clock readings. -/
def runUpdates (a : AppState) (fails : Nat → Bool) :
    List (UpdatePayload × Rat × Rat) → AppState
  | [] => a
  | (p, t1, t2) :: rest =>
    runUpdates (httpSetState a p fails t1 t2).appState fails rest

/-- `http_get_state` (server.py lines 166-168): returns
`app_state.state_payload()`, which also mutates the stored state (stamp and
clamp in place). -/
def httpGetState (a : AppState) (t : Rat) : AppState × Payload :=
  let s := statePayloadCore a.state t
  ({ a with state := s }, mkPayload s a.activeProjectId)

/-! ### Helper lemmas -/

theorem ratTrunc_intCast (n : Int) : ratTrunc (n : Rat) = n := by
  unfold ratTrunc
  split <;> simp

theorem clamp_bar_ge (s : TransportState) : 1 ≤ s.clamp.bar := by
  simp [TransportState.clamp]

theorem clamp_beat_ge (s : TransportState) : 1 ≤ s.clamp.beat := by
  simp [TransportState.clamp]

theorem clamp_bpm_ne (s : TransportState) : s.clamp.bpm ≠ 0 := by
  simp only [TransportState.clamp]
  split
  · assumption
  · norm_num

theorem clamp_ts_num_ge (s : TransportState) : 1 ≤ s.clamp.ts_num := by
  simp [TransportState.clamp]

theorem clamp_ts_den_ge (s : TransportState) : 1 ≤ s.clamp.ts_den := by
  simp [TransportState.clamp]

theorem clamp_idem (s : TransportState) : s.clamp.clamp = s.clamp := by
  unfold TransportState.clamp
  ext <;> dsimp only <;>
    first
      | rfl
      | (simp only [ratTrunc_intCast]; rw [← max_assoc, max_self])
      | (split_ifs <;> simp_all)

theorem clamp_t_host (s : TransportState) : s.clamp.t_host = s.t_host := by
  simp [TransportState.clamp]

theorem clamp_set_t_host (s : TransportState) (t : Rat) :
    TransportState.clamp { s with t_host := t } = { s.clamp with t_host := t } := by
  simp [TransportState.clamp]

theorem statePayloadCore_twice (s : TransportState) (t1 t2 : Rat) :
    statePayloadCore (statePayloadCore s t1) t2 =
      { statePayloadCore s t1 with t_host := t2 } := by
  unfold statePayloadCore
  rw [clamp_set_t_host (TransportState.clamp { s with t_host := t1 }) t2,
    clamp_idem]

/-- Every payload read off a stamp-and-clamp satisfies the clamp bounds. -/
theorem payload_invariant (s : TransportState) (t : Rat) (pid : String) :
    1 ≤ (mkPayload (statePayloadCore s t) pid).bar ∧
    1 ≤ (mkPayload (statePayloadCore s t) pid).beat ∧
    (mkPayload (statePayloadCore s t) pid).bpm ≠ 0 ∧
    1 ≤ (mkPayload (statePayloadCore s t) pid).ts_num ∧
    1 ≤ (mkPayload (statePayloadCore s t) pid).ts_den :=
  ⟨clamp_bar_ge _, clamp_beat_ge _, clamp_bpm_ne _, clamp_ts_num_ge _,
    clamp_ts_den_ge _⟩

/-! ### Claim theorems -/

/-- C1 (amended): for every sequence of ApplyPartialUpdate calls, every
snapshot subsequently produced by get_snapshot/state_payload — whether
returned by `GET /api/state` or broadcast by a further `POST /api/state` —
satisfies `bar ≥ 1`, `beat ≥ 1`, `bpm ≠ 0`, `ts_num ≥ 1` and `ts_den ≥ 1`.
(The original `bpm > 0` is false: the clamp resets only a zero bpm, so a
negative bpm write survives into snapshots.) -/
theorem update_sequence_snapshot_invariant
    (a : AppState) (fails : Nat → Bool)
    (updates : List (UpdatePayload × Rat × Rat)) (t : Rat)
    (p : UpdatePayload) (t1 t2 : Rat) :
    (1 ≤ (httpGetState (runUpdates a fails updates) t).2.bar ∧
      1 ≤ (httpGetState (runUpdates a fails updates) t).2.beat ∧
      (httpGetState (runUpdates a fails updates) t).2.bpm ≠ 0 ∧
      1 ≤ (httpGetState (runUpdates a fails updates) t).2.ts_num ∧
      1 ≤ (httpGetState (runUpdates a fails updates) t).2.ts_den) ∧
    (1 ≤ (httpSetState (runUpdates a fails updates) p fails t1 t2).snapshot.bar ∧
      1 ≤ (httpSetState (runUpdates a fails updates) p fails t1 t2).snapshot.beat ∧
      (httpSetState (runUpdates a fails updates) p fails t1 t2).snapshot.bpm ≠ 0 ∧
      1 ≤ (httpSetState (runUpdates a fails updates) p fails t1 t2).snapshot.ts_num ∧
      1 ≤ (httpSetState (runUpdates a fails updates) p fails t1 t2).snapshot.ts_den) :=
  ⟨payload_invariant _ _ _, payload_invariant _ _ _⟩

/-- C1 counterexample: a single ApplyPartialUpdate writing `bpm = -5` makes
the next get_snapshot report `bpm = -5`, so the claimed `bpm > 0` invariant
is false on the code. -/
theorem update_sequence_bpm_counterexample :
    (httpGetState
        (runUpdates { activeProjectId := "p", state := TransportState.init, wsClients := [] }
          (fun _ => false)
          [({ UpdatePayload.empty with bpm := some (-5) }, 0, 0)]) 1).2.bpm = -5 ∧
    ¬ (0 < (httpGetState
        (runUpdates { activeProjectId := "p", state := TransportState.init, wsClients := [] }
          (fun _ => false)
          [({ UpdatePayload.empty with bpm := some (-5) }, 0, 0)]) 1).2.bpm) := by
  constructor
  · rfl
  · decide

/-- C8: from every state, ApplyPartialUpdate with `bpm = 0` produces a
broadcast snapshot (and response payload) whose bpm is 120: the clamp
treats a zero bpm as absent and resets it to the default. -/
theorem bpm_zero_resets_to_default (a : AppState) (fails : Nat → Bool)
    (t1 t2 : Rat) (e : List String) :
    (httpSetState a { UpdatePayload.empty with bpm := some 0, extra := e }
        fails t1 t2).snapshot.bpm = 120 ∧
    (httpSetState a { UpdatePayload.empty with bpm := some 0, extra := e }
        fails t1 t2).responseState.bpm = 120 := by
  constructor <;>
    simp [httpSetState, statePayloadCore, TransportState.clamp, mkPayload,
      applyFields, UpdatePayload.empty]

/-- C10: an ApplyPartialUpdate that writes a strictly negative ppq is left
unchanged by the clamp (only a falsy/zero ppq is reset to 0.0): both the
broadcast snapshot of that call and the next get_snapshot report the same
negative ppq at the public interface. -/
theorem negative_ppq_survives (a : AppState) (q : Rat) (fails : Nat → Bool)
    (t1 t2 t3 : Rat) (hq : q < 0) :
    (httpSetState a { UpdatePayload.empty with ppq := some q }
        fails t1 t2).snapshot.ppq = q ∧
    (httpSetState a { UpdatePayload.empty with ppq := some q }
        fails t1 t2).snapshot.ppq < 0 ∧
    (httpGetState (httpSetState a { UpdatePayload.empty with ppq := some q }
        fails t1 t2).appState t3).2.ppq = q := by
  have hne : q ≠ 0 := ne_of_lt hq
  refine ⟨?_, ?_, ?_⟩ <;>
    simp [httpSetState, httpGetState, statePayloadCore, TransportState.clamp,
      mkPayload, applyFields, UpdatePayload.empty, hne, hq]

/-- C10 witness at `ppq = -1`. -/
theorem negative_ppq_survives_witness :
    ((-1 : Rat) < 0) ∧
    ((httpSetState { activeProjectId := "p", state := TransportState.init, wsClients := [] }
        { UpdatePayload.empty with ppq := some (-1) } (fun _ => false) 0 0).snapshot.ppq = -1 ∧
      (httpSetState { activeProjectId := "p", state := TransportState.init, wsClients := [] }
        { UpdatePayload.empty with ppq := some (-1) } (fun _ => false) 0 0).snapshot.ppq < 0 ∧
      (httpGetState (httpSetState { activeProjectId := "p", state := TransportState.init, wsClients := [] }
        { UpdatePayload.empty with ppq := some (-1) } (fun _ => false) 0 0).appState 0).2.ppq = -1) :=
  ⟨by norm_num,
    negative_ppq_survives
      { activeProjectId := "p", state := TransportState.init, wsClients := [] }
      (-1) (fun _ => false) 0 0 0 (by norm_num)⟩

/-- C9: two consecutive GetSnapshot calls with no intervening mutation (the
second reading a wall clock `t2 ≥ t1`) return snapshots that agree on every
field except `t_host`, and the second `t_host` is ≥ the first. -/
theorem get_snapshot_idempotent (a : AppState) (t1 t2 : Rat) (h : t1 ≤ t2) :
    (httpGetState (httpGetState a t1).1 t2).2 =
      { (httpGetState a t1).2 with t_host := t2 } ∧
    (httpGetState a t1).2.t_host ≤ (httpGetState (httpGetState a t1).1 t2).2.t_host := by
  constructor
  · show mkPayload (statePayloadCore (statePayloadCore a.state t1) t2) _ = _
    rw [statePayloadCore_twice]
    simp [mkPayload, httpGetState]
  · show (mkPayload (statePayloadCore a.state t1) _).t_host ≤
      (mkPayload (statePayloadCore (statePayloadCore a.state t1) t2) _).t_host
    rw [statePayloadCore_twice]
    simpa [mkPayload, statePayloadCore, clamp_t_host] using h

/-- C9 witness at a concrete state and clock readings 0 ≤ 1. -/
theorem get_snapshot_idempotent_witness :
    ((0 : Rat) ≤ 1) ∧
    ((httpGetState (httpGetState { activeProjectId := "p", state := TransportState.init, wsClients := [] } 0).1 1).2 =
        { (httpGetState { activeProjectId := "p", state := TransportState.init, wsClients := [] } 0).2 with t_host := 1 } ∧
      (httpGetState { activeProjectId := "p", state := TransportState.init, wsClients := [] } 0).2.t_host ≤
        (httpGetState (httpGetState { activeProjectId := "p", state := TransportState.init, wsClients := [] } 0).1 1).2.t_host) :=
  ⟨by norm_num,
    get_snapshot_idempotent
      { activeProjectId := "p", state := TransportState.init, wsClients := [] }
      0 1 (by norm_num)⟩

/-- C6: ApplyPartialUpdate overwrites exactly the recognized fields present
in the input (each present field takes the written value, each absent field
keeps its previous value, `t_host` is untouched by the assignment loop),
ignores unrecognized field names, and from the initial state
`ApplyPartialUpdate` of `bar = 5, playing = true` yields a snapshot with
`bar = 5`, `playing = true`, `beat = 1`, `bpm = 120`. -/
theorem apply_update_field_effect (s : TransportState) (p : UpdatePayload) :
    (applyFields s p).playing = p.playing.getD s.playing ∧
    (applyFields s p).bar = p.bar.getD s.bar ∧
    (applyFields s p).beat = p.beat.getD s.beat ∧
    (applyFields s p).bpm = p.bpm.getD s.bpm ∧
    (applyFields s p).ppq = p.ppq.getD s.ppq ∧
    (applyFields s p).ts_num = p.ts_num.getD s.ts_num ∧
    (applyFields s p).ts_den = p.ts_den.getD s.ts_den ∧
    (applyFields s p).t_host = s.t_host ∧
    (∀ e, applyFields s { p with extra := e } = applyFields s p) ∧
    ((httpSetState { activeProjectId := "p", state := TransportState.init, wsClients := [] }
        { UpdatePayload.empty with bar := some 5, playing := some true }
        (fun _ => false) 0 0).snapshot.bar = 5 ∧
      (httpSetState { activeProjectId := "p", state := TransportState.init, wsClients := [] }
        { UpdatePayload.empty with bar := some 5, playing := some true }
        (fun _ => false) 0 0).snapshot.playing = true ∧
      (httpSetState { activeProjectId := "p", state := TransportState.init, wsClients := [] }
        { UpdatePayload.empty with bar := some 5, playing := some true }
        (fun _ => false) 0 0).snapshot.beat = 1 ∧
      (httpSetState { activeProjectId := "p", state := TransportState.init, wsClients := [] }
        { UpdatePayload.empty with bar := some 5, playing := some true }
        (fun _ => false) 0 0).snapshot.bpm = 120) :=
  ⟨rfl, rfl, rfl, rfl, rfl, rfl, rfl, rfl, fun _ => rfl,
    by constructor
       · rfl
       · exact ⟨rfl, rfl, rfl⟩⟩

/-- C4: one ApplyPartialUpdate serializes the resulting snapshot once and
performs exactly one delivery attempt per registered observer, every attempt
carrying that same serialized payload. -/
theorem fanout_complete (a : AppState) (p : UpdatePayload)
    (fails : Nat → Bool) (t1 t2 : Rat) :
    (httpSetState a p fails t1 t2).broadcastMsg =
      serializePayload (httpSetState a p fails t1 t2).snapshot ∧
    (httpSetState a p fails t1 t2).attempts =
      a.wsClients.map (fun c => (c, (httpSetState a p fails t1 t2).broadcastMsg)) ∧
    (httpSetState a p fails t1 t2).attempts.length = a.wsClients.length := by
  refine ⟨rfl, rfl, ?_⟩
  simp [httpSetState]

/-- A duplicate-free list containing `o` filters down to exactly `[o]` on
the predicate "equals o". -/
theorem filter_eq_singleton (l : List Nat) (o : Nat) (hnd : l.Nodup)
    (ho : o ∈ l) : l.filter (fun c => decide (c = o)) = [o] := by
  induction l with
  | nil => cases ho
  | cons a t ih =>
    rcases List.nodup_cons.mp hnd with ⟨hat, hnt⟩
    by_cases hao : a = o
    · subst hao
      have hnil : t.filter (fun c => decide (c = a)) = [] := by
        refine List.filter_eq_nil_iff.mpr ?_
        intro b hb
        simp only [decide_eq_true_eq]
        rintro rfl
        exact hat hb
      simp [List.filter_cons, hnil]
    · have hot : o ∈ t := by
        rcases List.mem_cons.mp ho with h | h
        · exact absurd h.symm hao
        · exact h
      simp [List.filter_cons, hao, ih hnt hot]

/-- On a duplicate-free list, filtering out `o` is exactly `List.erase o`. -/
theorem filter_ne_eq_erase (l : List Nat) (o : Nat) (hnd : l.Nodup) :
    l.filter (fun c => !(decide (c = o))) = l.erase o := by
  induction l with
  | nil => rfl
  | cons a t ih =>
    rcases List.nodup_cons.mp hnd with ⟨hat, hnt⟩
    by_cases hao : a = o
    · subst hao
      have hself : t.filter (fun c => !(decide (c = a))) = t := by
        refine List.filter_eq_self.mpr ?_
        intro b hb
        simp only [Bool.not_eq_true', decide_eq_false_iff_not]
        rintro rfl
        exact hat hb
      simp [List.filter_cons, hself, List.erase_cons_head]
    · have hbe : ¬ ((a == o) = true) := by simpa using hao
      simp [List.filter_cons, hao, ih hnt, List.erase_cons_tail hbe]

/-- C5: when delivery fails for exactly one registered observer `o`, the
broadcast completes anyway, the other observers each still receive the
(shared) snapshot serialization, and afterwards `o` is gone from the
registry while all others remain. -/
theorem fanout_fault_isolation (a : AppState) (p : UpdatePayload) (o : Nat)
    (t1 t2 : Rat) (hnd : a.wsClients.Nodup) (ho : o ∈ a.wsClients) :
    (httpSetState a p (fun c => decide (c = o)) t1 t2).dead = [o] ∧
    (httpSetState a p (fun c => decide (c = o)) t1 t2).appState.wsClients =
      a.wsClients.erase o ∧
    (httpSetState a p (fun c => decide (c = o)) t1 t2).delivered =
      (a.wsClients.erase o).map
        (fun c => (c, (httpSetState a p (fun c => decide (c = o)) t1 t2).broadcastMsg)) ∧
    (httpSetState a p (fun c => decide (c = o)) t1 t2).delivered.length + 1 =
      a.wsClients.length := by
  refine ⟨filter_eq_singleton _ _ hnd ho, filter_ne_eq_erase _ _ hnd, ?_, ?_⟩
  · show (a.wsClients.filter _).map _ = _
    rw [filter_ne_eq_erase _ _ hnd]
    rfl
  · show ((a.wsClients.filter _).map _).length + 1 = _
    rw [filter_ne_eq_erase _ _ hnd, List.length_map,
      List.length_erase_add_one ho]

/-- C5 witness: three registered observers `[0, 1, 2]`, observer 1 fails. -/
theorem fanout_fault_isolation_witness :
    ([0, 1, 2] : List Nat).Nodup ∧ (1 ∈ ([0, 1, 2] : List Nat)) ∧
    ((httpSetState { activeProjectId := "p", state := TransportState.init, wsClients := [0, 1, 2] }
        UpdatePayload.empty (fun c => decide (c = 1)) 0 0).dead = [1] ∧
      (httpSetState { activeProjectId := "p", state := TransportState.init, wsClients := [0, 1, 2] }
        UpdatePayload.empty (fun c => decide (c = 1)) 0 0).appState.wsClients =
        ([0, 1, 2] : List Nat).erase 1 ∧
      (httpSetState { activeProjectId := "p", state := TransportState.init, wsClients := [0, 1, 2] }
        UpdatePayload.empty (fun c => decide (c = 1)) 0 0).delivered =
        (([0, 1, 2] : List Nat).erase 1).map
          (fun c => (c, (httpSetState { activeProjectId := "p", state := TransportState.init, wsClients := [0, 1, 2] }
            UpdatePayload.empty (fun c => decide (c = 1)) 0 0).broadcastMsg)) ∧
      (httpSetState { activeProjectId := "p", state := TransportState.init, wsClients := [0, 1, 2] }
        UpdatePayload.empty (fun c => decide (c = 1)) 0 0).delivered.length + 1 =
        ([0, 1, 2] : List Nat).length) :=
  ⟨by decide, by decide,
    fanout_fault_isolation
      { activeProjectId := "p", state := TransportState.init, wsClients := [0, 1, 2] }
      UpdatePayload.empty 1 0 0 (by decide) (by decide)⟩

/-- C2: when the request's resolved id is falsy (absent or empty) or not a
key of the project catalog, SelectProject answers 404 ProjectNotFound,
leaves the whole app state (transport fields, active id, registry) exactly
as it was, and attempts no delivery to any observer. -/
theorem select_unknown_no_mutation (projects : List (String × Project))
    (a : AppState) (pidField idField : Option String) (fails : Nat → Bool)
    (t : Rat)
    (h : ∀ pid, pyOrStr pidField idField = some pid →
      pid = "" ∨ projects.lookup pid = none) :
    (httpSelect projects a pidField idField fails t).notFound = true ∧
    (httpSelect projects a pidField idField fails t).appState = a ∧
    (httpSelect projects a pidField idField fails t).snapshot = none ∧
    (httpSelect projects a pidField idField fails t).attempts = [] ∧
    (httpSelect projects a pidField idField fails t).delivered = [] := by
  cases hp : pyOrStr pidField idField with
  | none => simp [httpSelect, hp]
  | some pid =>
    rcases h pid hp with h1 | h1
    · subst h1
      simp [httpSelect, hp]
    · by_cases hpe : pid = ""
      · subst hpe
        simp [httpSelect, hp]
      · simp [httpSelect, hp, hpe, h1]

/-- C2 witness: catalog `[("a", _)]`, request id `"zzz"`. -/
theorem select_unknown_no_mutation_witness :
    (∀ pid, pyOrStr (some "zzz") none = some pid →
      pid = "" ∨ ([("a", { meta := none })] : List (String × Project)).lookup pid = none) ∧
    ((httpSelect [("a", { meta := none })]
        { activeProjectId := "a", state := TransportState.init, wsClients := [7] }
        (some "zzz") none (fun _ => false) 3).notFound = true ∧
      (httpSelect [("a", { meta := none })]
        { activeProjectId := "a", state := TransportState.init, wsClients := [7] }
        (some "zzz") none (fun _ => false) 3).appState =
        { activeProjectId := "a", state := TransportState.init, wsClients := [7] } ∧
      (httpSelect [("a", { meta := none })]
        { activeProjectId := "a", state := TransportState.init, wsClients := [7] }
        (some "zzz") none (fun _ => false) 3).snapshot = none ∧
      (httpSelect [("a", { meta := none })]
        { activeProjectId := "a", state := TransportState.init, wsClients := [7] }
        (some "zzz") none (fun _ => false) 3).attempts = [] ∧
      (httpSelect [("a", { meta := none })]
        { activeProjectId := "a", state := TransportState.init, wsClients := [7] }
        (some "zzz") none (fun _ => false) 3).delivered = []) :=
  ⟨fun pid hp => by
      have hz : some "zzz" = some pid := hp
      injection hz with hz2
      subst hz2
      right
      rfl,
    select_unknown_no_mutation [("a", { meta := none })]
      { activeProjectId := "a", state := TransportState.init, wsClients := [7] }
      (some "zzz") none (fun _ => false) 3
      (fun pid hp => by
        have hz : some "zzz" = some pid := hp
        injection hz with hz2
        subst hz2
        right
        rfl)⟩

/-- The concrete time-signature string `"3/4"` parses to `(3, 4)` whatever
the previous values were. -/
theorem parseTs_three_four (pn pd : Rat) : parseTs (some "3/4") pn pd = (3, 4) := by
  have hc : "3/4".data.contains '/' = true := by decide
  have hsplit : splitOnSlash "3/4".data = [['3'], ['4']] := by decide
  have h0 : pyIntOfChars ['3'] = some 3 := by decide
  have h1 : pyIntOfChars ['4'] = some 4 := by decide
  simp [parseTs, hc, hsplit, h0, h1]

/-- C7: selecting a catalog project whose metadata declares tempo 90 and
time signature "3/4" succeeds, makes that id the active project, resets
`bar = 1`, `beat = 1`, `ppq = 0.0`, derives `bpm = 90`, `ts_num = 3`,
`ts_den = 4`, and the produced snapshot carries exactly those values plus
the new active project id. -/
theorem select_applies_project_meta (projects : List (String × Project))
    (a : AppState) (pidField idField : Option String) (fails : Nat → Bool)
    (t : Rat) (pid : String)
    (hpid : pyOrStr pidField idField = some pid) (hne : pid ≠ "")
    (hlook : projects.lookup pid =
      some { meta := some { bpm := none, tempo := some 90, timeSig := some "3/4" } }) :
    (httpSelect projects a pidField idField fails t).notFound = false ∧
    (httpSelect projects a pidField idField fails t).appState.activeProjectId = pid ∧
    (httpSelect projects a pidField idField fails t).snapshot =
      some { playing := a.state.playing, bar := 1, beat := 1, bpm := 90, ppq := 0,
             ts_num := 3, ts_den := 4, t_host := t, activeProjectId := pid } := by
  simp [httpSelect, hpid, hne, hlook, parseTs_three_four, pyOrNum,
    statePayloadCore, TransportState.clamp, mkPayload, ratTrunc]

/-- C7 witness: singleton catalog with tempo 90 and "3/4". -/
theorem select_applies_project_meta_witness :
    (pyOrStr (some "p") none = some "p") ∧ ("p" ≠ "") ∧
    (([("p", { meta := some { bpm := none, tempo := some 90, timeSig := some "3/4" } })] :
        List (String × Project)).lookup "p" =
      some { meta := some { bpm := none, tempo := some 90, timeSig := some "3/4" } }) ∧
    ((httpSelect [("p", { meta := some { bpm := none, tempo := some 90, timeSig := some "3/4" } })]
        { activeProjectId := "q", state := TransportState.init, wsClients := [] }
        (some "p") none (fun _ => false) 2).notFound = false ∧
      (httpSelect [("p", { meta := some { bpm := none, tempo := some 90, timeSig := some "3/4" } })]
        { activeProjectId := "q", state := TransportState.init, wsClients := [] }
        (some "p") none (fun _ => false) 2).appState.activeProjectId = "p" ∧
      (httpSelect [("p", { meta := some { bpm := none, tempo := some 90, timeSig := some "3/4" } })]
        { activeProjectId := "q", state := TransportState.init, wsClients := [] }
        (some "p") none (fun _ => false) 2).snapshot =
        some { playing := TransportState.init.playing, bar := 1, beat := 1, bpm := 90,
               ppq := 0, ts_num := 3, ts_den := 4, t_host := 2, activeProjectId := "p" }) :=
  ⟨rfl, by decide, rfl,
    select_applies_project_meta
      [("p", { meta := some { bpm := none, tempo := some 90, timeSig := some "3/4" } })]
      { activeProjectId := "q", state := TransportState.init, wsClients := [] }
      (some "p") none (fun _ => false) 2 "p" rfl (by decide) rfl⟩

/-- C3 counterexample: selecting a project whose time-signature string is
`"3/x"` (numerator parses, denominator does not) from the initial state
(`ts_num = 4`) succeeds, keeps `ts_den = 4` — but sets `ts_num` to 3, so
the claim that both prior values are left unchanged is false on the code:
the first `int(...)` assignment has already happened when the second one
raises inside the shared `try`. -/
theorem select_malformed_ts_counterexample :
    (httpSelect [("p", { meta := some { bpm := none, tempo := none, timeSig := some "3/x" } })]
      { activeProjectId := "q", state := TransportState.init, wsClients := [] }
      (some "p") none (fun _ => false) 0).notFound = false ∧
    (httpSelect [("p", { meta := some { bpm := none, tempo := none, timeSig := some "3/x" } })]
      { activeProjectId := "q", state := TransportState.init, wsClients := [] }
      (some "p") none (fun _ => false) 0).appState.state.ts_den = 4 ∧
    (httpSelect [("p", { meta := some { bpm := none, tempo := none, timeSig := some "3/x" } })]
      { activeProjectId := "q", state := TransportState.init, wsClients := [] }
      (some "p") none (fun _ => false) 0).appState.state.ts_num = 3 ∧
    ¬ ((httpSelect [("p", { meta := some { bpm := none, tempo := none, timeSig := some "3/x" } })]
      { activeProjectId := "q", state := TransportState.init, wsClients := [] }
      (some "p") none (fun _ => false) 0).appState.state.ts_num =
        TransportState.init.ts_num) := by
  refine ⟨rfl, by decide, by decide, by decide⟩

/-- If the time-signature string does not parse as N/D, `ts_den` keeps its
previous value. -/
theorem parseTs_den_unchanged (ts : String) (pn pd : Rat)
    (hbad : tsParses ts = false) : (parseTs (some ts) pn pd).2 = pd := by
  unfold tsParses at hbad
  simp only [parseTs]
  by_cases hc : ts.data.contains '/'
  · rw [if_pos hc]
    cases h0 : pyIntOfChars ((splitOnSlash ts.data).getD 0 []) with
    | none => rfl
    | some n =>
      cases h1 : pyIntOfChars ((splitOnSlash ts.data).getD 1 []) with
      | none => rfl
      | some d =>
        rw [hc, h0, h1] at hbad
        simp at hbad
  · rw [if_neg hc]

/-- If the string has no slash, or its numerator part does not parse,
`ts_num` keeps its previous value. -/
theorem parseTs_num_unchanged (ts : String) (pn pd : Rat)
    (h : ts.data.contains '/' = false ∨
      pyIntOfChars ((splitOnSlash ts.data).getD 0 []) = none) :
    (parseTs (some ts) pn pd).1 = pn := by
  simp only [parseTs]
  rcases h with h | h
  · rw [if_neg (by rw [h]; exact Bool.false_ne_true)]
  · by_cases hc : ts.data.contains '/'
    · rw [if_pos hc, h]
    · rw [if_neg hc]

/-- If the string has a slash and its numerator part parses as `n`,
`ts_num` is set to `n` — whether or not the denominator part parses. -/
theorem parseTs_num_updated (ts : String) (pn pd : Rat) (n : Int)
    (hc : ts.data.contains '/' = true)
    (h0 : pyIntOfChars ((splitOnSlash ts.data).getD 0 []) = some n) :
    (parseTs (some ts) pn pd).1 = (n : Rat) := by
  simp only [parseTs]
  rw [if_pos hc, h0]
  cases h1 : pyIntOfChars ((splitOnSlash ts.data).getD 1 []) <;> rfl

/-- C3 (amended): a successful SelectProject of a project whose declared
time-signature string does not parse as N/D never raises and always leaves
the prior `ts_den` unchanged; the prior `ts_num` is kept only when the
numerator part also fails to parse (or there is no slash) — when the
numerator parses as `n` but the denominator fails, `ts_num` becomes `n`
(clamped).  The prior state is assumed clamp-stable, which holds for every
previously observed state. -/
theorem select_malformed_ts_keeps_den (projects : List (String × Project))
    (a : AppState) (pidField idField : Option String) (fails : Nat → Bool)
    (t : Rat) (pid : String) (m : ProjectMeta) (ts : String)
    (hclamp : a.state.clamp = a.state)
    (hpid : pyOrStr pidField idField = some pid) (hne : pid ≠ "")
    (hlook : projects.lookup pid = some { meta := some m })
    (hts : m.timeSig = some ts)
    (hbad : tsParses ts = false) :
    (httpSelect projects a pidField idField fails t).notFound = false ∧
    (httpSelect projects a pidField idField fails t).appState.state.ts_den =
      a.state.ts_den ∧
    ((ts.data.contains '/' = false ∨
        pyIntOfChars ((splitOnSlash ts.data).getD 0 []) = none) →
      (httpSelect projects a pidField idField fails t).appState.state.ts_num =
        a.state.ts_num) ∧
    (∀ n : Int, ts.data.contains '/' = true →
      pyIntOfChars ((splitOnSlash ts.data).getD 0 []) = some n →
      (httpSelect projects a pidField idField fails t).appState.state.ts_num =
        ((max 1 n : Int) : Rat)) := by
  have hfixden : ((max 1 (ratTrunc a.state.ts_den) : Int) : Rat) = a.state.ts_den := by
    have h := congrArg TransportState.ts_den hclamp
    simpa [TransportState.clamp] using h
  have hfixnum : ((max 1 (ratTrunc a.state.ts_num) : Int) : Rat) = a.state.ts_num := by
    have h := congrArg TransportState.ts_num hclamp
    simpa [TransportState.clamp] using h
  refine ⟨?_, ?_, ?_, ?_⟩
  · simp [httpSelect, hpid, hne, hlook]
  · have hd := parseTs_den_unchanged ts a.state.ts_num a.state.ts_den hbad
    simp [httpSelect, hpid, hne, hlook, hts, statePayloadCore,
      TransportState.clamp, hd, hfixden]
  · intro h
    have hn := parseTs_num_unchanged ts a.state.ts_num a.state.ts_den h
    simp [httpSelect, hpid, hne, hlook, hts, statePayloadCore,
      TransportState.clamp, hn, hfixnum]
  · intro n hc h0
    have hn := parseTs_num_updated ts a.state.ts_num a.state.ts_den n hc h0
    simp [httpSelect, hpid, hne, hlook, hts, statePayloadCore,
      TransportState.clamp, hn, ratTrunc_intCast]

/-- C3 witness at the string `"3/x"` and the initial (clamp-stable) state. -/
theorem select_malformed_ts_keeps_den_witness :
    (TransportState.init.clamp = TransportState.init) ∧
    (pyOrStr (some "p") none = some "p") ∧ ("p" ≠ "") ∧
    (([("p", { meta := some { bpm := none, tempo := none, timeSig := some "3/x" } })] :
        List (String × Project)).lookup "p" =
      some { meta := some { bpm := none, tempo := none, timeSig := some "3/x" } }) ∧
    (tsParses "3/x" = false) ∧
    ((httpSelect [("p", { meta := some { bpm := none, tempo := none, timeSig := some "3/x" } })]
        { activeProjectId := "q", state := TransportState.init, wsClients := [] }
        (some "p") none (fun _ => false) 0).notFound = false ∧
      (httpSelect [("p", { meta := some { bpm := none, tempo := none, timeSig := some "3/x" } })]
        { activeProjectId := "q", state := TransportState.init, wsClients := [] }
        (some "p") none (fun _ => false) 0).appState.state.ts_den =
        TransportState.init.ts_den ∧
      (("3/x".data.contains '/' = false ∨
          pyIntOfChars ((splitOnSlash "3/x".data).getD 0 []) = none) →
        (httpSelect [("p", { meta := some { bpm := none, tempo := none, timeSig := some "3/x" } })]
          { activeProjectId := "q", state := TransportState.init, wsClients := [] }
          (some "p") none (fun _ => false) 0).appState.state.ts_num =
          TransportState.init.ts_num) ∧
      (∀ n : Int, "3/x".data.contains '/' = true →
        pyIntOfChars ((splitOnSlash "3/x".data).getD 0 []) = some n →
        (httpSelect [("p", { meta := some { bpm := none, tempo := none, timeSig := some "3/x" } })]
          { activeProjectId := "q", state := TransportState.init, wsClients := [] }
          (some "p") none (fun _ => false) 0).appState.state.ts_num =
          ((max 1 n : Int) : Rat))) :=
  ⟨by decide, rfl, by decide, rfl, by decide,
    select_malformed_ts_keeps_den
      [("p", { meta := some { bpm := none, tempo := none, timeSig := some "3/x" } })]
      { activeProjectId := "q", state := TransportState.init, wsClients := [] }
      (some "p") none (fun _ => false) 0 "p"
      { bpm := none, tempo := none, timeSig := some "3/x" } "3/x"
      (by decide) rfl (by decide) rfl rfl (by decide)⟩

end DrumHud
